import Mathlib

/-!
# Verification of the oximeter acquisition state machine

Shallow embedding of `src/oximeter_main.ino` (ESP32 pulse oximeter).
Times (`millis()`) are modelled as an unbounded `Nat` counter: on the
device `millis()` is monotone and sessions are far below the 2^32 ms
wrap, so unsigned wraparound subtraction `currentTime - lastX` agrees
with truncated `Nat` subtraction whenever `lastX ≤ currentTime`, which
holds along every monotone execution.

External collaborators are abstracted exactly as the code uses them:
the MAX30105 sensor is an input stream of raw channel readings, and
`maxim_heart_rate_and_oxygen_saturation` is an opaque pure function
(`Estimator`) from the two channel buffers to an estimate record.
-/

namespace Oximeter

/-! ## Configuration constants (lines 16-19 of oximeter_main.ino) -/

def BUFFER_SIZE : Nat := 100
def FINGER_THRESHOLD : Nat := 50000
def DISPLAY_UPDATE_INTERVAL : Nat := 1000
def MEASUREMENT_SAMPLES : Nat := 25

/-! ## Data model -/

/-- One (red, infrared) raw sample pair. -/
structure SamplePair where
  red : Nat
  infrared : Nat
deriving Repr, DecidableEq

/-- System state enumeration (lines 48-54). -/
inductive SystemState where
  | initializing
  | waitingFinger
  | measuring
  | displayingResults
  | error
deriving Repr, DecidableEq

/-- Output record of `maxim_heart_rate_and_oxygen_saturation`: the four
globals `spo2, validSPO2, heartRate, validHeartRate` (lines 36-39).
The `int8_t` validity flags are modelled as `Bool` (nonzero = true). -/
structure Estimate where
  spo2 : Int
  validSPO2 : Bool
  heartRate : Int
  validHeartRate : Bool
deriving Repr, DecidableEq

/-- The vendor estimation routine, opaque and pure: it is called as
`maxim_heart_rate_and_oxygen_saturation(irBuffer, 100, redBuffer, ...)`,
so it is a function of the IR buffer then the red buffer. -/
def Estimator : Type := List Nat → List Nat → Estimate

/-! ## AlertManager: handleAlerts (lines 371-410)

The two SpO2 patterns and the heart-rate tone are represented as
events; the actual buzzer GPIO timing (200/300/1000/100 ms delays)
is collapsed into which pattern was started this call. -/

/-- The SpO2 buzzer patterns of handleAlerts. -/
inductive AlertPattern where
  /-- two 200 ms tones separated by 300 ms (80 < spo2 < 90 branch) -/
  | doubleShortTones
  /-- one continuous 1000 ms tone (0 < spo2 ≤ 80 branch) -/
  | continuousTone
deriving Repr, DecidableEq

/-- Result of one handleAlerts invocation: the (static) `lastAlertTime`
after the call, which SpO2 pattern (if any) started, and whether the
100 ms heart-rate tone fired. -/
structure AlertResult where
  lastAlertTime : Nat
  spo2Pattern : Option AlertPattern
  hrTone : Bool
deriving Repr, DecidableEq

/-- Direct translation of `handleAlerts` (lines 371-410).  Reads the
globals `validSPO2, fingerDetected, spo2, validHeartRate, heartRate`,
the static `lastAlertTime`, and `millis()` (`currentTime`). -/
def handleAlerts (validSPO2 fingerDetected : Bool) (spo2 : Int)
    (validHeartRate : Bool) (heartRate : Int)
    (lastAlertTime currentTime : Nat) : AlertResult :=
  if validSPO2 = false ∨ fingerDetected = false then
    { lastAlertTime := lastAlertTime, spo2Pattern := none, hrTone := false }
  else if currentTime - lastAlertTime < 3000 then
    { lastAlertTime := lastAlertTime, spo2Pattern := none, hrTone := false }
  else
    let hrFire : Bool :=
      validHeartRate && (decide (heartRate > 120) || decide (heartRate < 50))
    if spo2 < 90 ∧ spo2 > 80 then
      { lastAlertTime := currentTime, spo2Pattern := some .doubleShortTones,
        hrTone := hrFire }
    else if spo2 ≤ 80 ∧ spo2 > 0 then
      { lastAlertTime := currentTime, spo2Pattern := some .continuousTone,
        hrTone := hrFire }
    else
      { lastAlertTime := lastAlertTime, spo2Pattern := none, hrTone := hrFire }

/-- The per-call inputs of handleAlerts: the globals it reads and the
`millis()` value at its entry. -/
structure AlertCall where
  validSPO2 : Bool
  fingerDetected : Bool
  spo2 : Int
  validHeartRate : Bool
  heartRate : Int
  time : Nat
deriving Repr, DecidableEq

/-- Run a sequence of handleAlerts invocations, threading the static
`lastAlertTime` through, and collect the (start time, pattern) of every
SpO2 alert pattern that starts. -/
def runAlerts (lastAlertTime : Nat) : List AlertCall → List (Nat × AlertPattern)
  | [] => []
  | c :: cs =>
    let r := handleAlerts c.validSPO2 c.fingerDetected c.spo2
      c.validHeartRate c.heartRate lastAlertTime c.time
    match r.spo2Pattern with
    | some p => (c.time, p) :: runAlerts r.lastAlertTime cs
    | none => runAlerts r.lastAlertTime cs

/-! ## SignalBuffer: updateDataBuffers (lines 316-333)

The C function acts identically and independently on the two channel
arrays `redBuffer` and `irBuffer`; `updateDataBuffers` below is that
per-channel action, with the `shiftCount` fresh sensor readings polled
by the second loop passed in as the list `news`.  Each C loop is
embedded as a fold of its body over its index range. -/

/-- Body of the shift loop (lines 318-321): `buf[i - 25] = buf[i]`. -/
def shiftStep (buf : List Nat) (i : Nat) : List Nat :=
  buf.set (i - MEASUREMENT_SAMPLES) (buf.getD i 0)

/-- Body of the refill loop (lines 324-332): `buf[i] = <next sample>`,
where the samples polled from the sensor are `news` in order, so the
sample stored at index `i` is `news[i - 75]`. -/
def fillStep (news : List Nat) (buf : List Nat) (i : Nat) : List Nat :=
  buf.set i (news.getD (i - (BUFFER_SIZE - MEASUREMENT_SAMPLES)) 0)

/-- Function updateDataBuffers on one channel: the shift loop runs over
`i = 25..99`, then the refill loop over `i = 75..99`. -/
def updateDataBuffers (buf news : List Nat) : List Nat :=
  (List.range' (BUFFER_SIZE - MEASUREMENT_SAMPLES) MEASUREMENT_SAMPLES).foldl
    (fillStep news)
    ((List.range' MEASUREMENT_SAMPLES (BUFFER_SIZE - MEASUREMENT_SAMPLES)).foldl
      shiftStep buf)

/-! ## Display model

LCD renders are modelled as abstract content values; the cursor
positioning and character output of the renderer are collapsed into
which screen was drawn and the data shown on it. -/

/-- Signal-strength label of the Measuring screen (lines 239-246). -/
inductive SignalLabel where
  | strong
  | good
  | weak
deriving Repr, DecidableEq

/-- SpO2 status tag of the results screen (lines 358-365). -/
inductive Spo2Tag where
  | ok
  | lo
  | critical
deriving Repr, DecidableEq

/-- A screen drawn by one tick. -/
inductive DisplayContent where
  /-- lines 202-206: the two-line place-finger prompt -/
  | waitingPrompt
  /-- lines 187-191 plus the collection progress screens -/
  | fingerDetectedMsg
  /-- lines 233-246: the Measuring screen with its strength label -/
  | measuringScreen (label : SignalLabel)
  /-- lines 335-369 displayMeasurements: heart rate shown (or dashes)
  and SpO2 shown with its tag (or dashes) -/
  | resultsScreen (hrShown : Option Int) (spo2Shown : Option (Int × Spo2Tag))
  /-- lines 169-175 displayError -/
  | errorScreen
deriving Repr, DecidableEq

/-- Signal-strength classification of lines 240-246, applied to
`irBuffer[BUFFER_SIZE-1]`. -/
def signalLabel (signalStrength : Nat) : SignalLabel :=
  if signalStrength > FINGER_THRESHOLD * 3 then .strong
  else if signalStrength > FINGER_THRESHOLD * 2 then .good
  else .weak

/-- Content drawn by `displayMeasurements` (lines 335-369) from the
current estimate globals. -/
def displayMeasurements (validHeartRate : Bool) (heartRate : Int)
    (validSPO2 : Bool) (spo2 : Int) : DisplayContent :=
  .resultsScreen
    (if validHeartRate = true ∧ heartRate > 0 then some heartRate else none)
    (if validSPO2 = true ∧ spo2 > 0 then
      some (spo2, if spo2 ≥ 95 then Spo2Tag.ok
                  else if spo2 ≥ 90 then Spo2Tag.lo
                  else Spo2Tag.critical)
     else none)

/-! ## Program state and tick inputs/outputs -/

/-- The mutable globals of the sketch (plus the `static` local
`lastAlertTime` of handleAlerts).  `bufferLength` is omitted: it is
constant 100 from the first fill on and only ever passed to the
estimator. -/
structure SysState where
  redBuffer : List Nat
  irBuffer : List Nat
  spo2 : Int
  validSPO2 : Bool
  heartRate : Int
  validHeartRate : Bool
  lastDisplayUpdate : Nat
  lastAlertTime : Nat
  fingerDetected : Bool
  systemReady : Bool
  currentState : SystemState
deriving Repr, DecidableEq

/-- Environment inputs consumed by one `loop()` iteration:
`now` is `millis()`, `avail`/`readingIR`/`readingRed` are the sensor
poll made by handleWaitingState, `initRed`/`initIr` are the 100 pairs
collectInitialData would poll, and `newRed`/`newIr` are the 25 pairs
updateDataBuffers would poll. -/
structure TickInput where
  now : Nat
  avail : Bool
  readingIR : Nat
  readingRed : Nat
  initRed : List Nat
  initIr : List Nat
  newRed : List Nat
  newIr : List Nat
deriving Repr

/-- Observable actuator activity of one `loop()` iteration. -/
structure TickOutput where
  /-- value written to STATUS_LED_PIN this tick (none if never written) -/
  led : Option Bool
  /-- screen rendered this tick, if any -/
  display : Option DisplayContent
  /-- SpO2 buzzer pattern started this tick, if any -/
  spo2Pattern : Option AlertPattern
  /-- whether the 100 ms heart-rate tone fired this tick -/
  hrTone : Bool
deriving Repr, DecidableEq

/-- A tick with no actuator activity. -/
def noOut : TickOutput :=
  { led := none, display := none, spo2Pattern := none, hrTone := false }

/-! ## State handlers (lines 177-282) -/

/-- Handler for STATE_WAITING_FINGER (lines 177-209).  When a sample is available
and both channels clear the threshold, the transition at lines 183-196
fires and `collectInitialData` (lines 284-314) refills both buffers
with 100 fresh pairs and recomputes the estimate; otherwise the
throttled place-finger prompt of lines 201-208 may render. -/
def handleWaitingState (est : Estimator) (inp : TickInput) (s : SysState) :
    SysState × TickOutput :=
  if inp.avail = true ∧ inp.readingIR > FINGER_THRESHOLD ∧
      inp.readingRed > FINGER_THRESHOLD then
    let e := est inp.initIr inp.initRed
    ({ s with fingerDetected := true, currentState := .measuring,
              redBuffer := inp.initRed, irBuffer := inp.initIr,
              spo2 := e.spo2, validSPO2 := e.validSPO2,
              heartRate := e.heartRate, validHeartRate := e.validHeartRate },
     { noOut with display := some .fingerDetectedMsg })
  else if inp.now - s.lastDisplayUpdate > DISPLAY_UPDATE_INTERVAL then
    ({ s with lastDisplayUpdate := inp.now },
     { noOut with display := some .waitingPrompt })
  else (s, noOut)

/-- Handler for STATE_MEASURING (lines 211-250): refresh both buffers,
recompute the estimate, check finger presence (lines 220-224), check
estimate acceptance (lines 227-229), then the throttled Measuring
screen (lines 232-249). -/
def handleMeasuringState (est : Estimator) (inp : TickInput) (s : SysState) :
    SysState × TickOutput :=
  let red := updateDataBuffers s.redBuffer inp.newRed
  let ir := updateDataBuffers s.irBuffer inp.newIr
  let e := est ir red
  let s1 := { s with redBuffer := red, irBuffer := ir,
                     spo2 := e.spo2, validSPO2 := e.validSPO2,
                     heartRate := e.heartRate, validHeartRate := e.validHeartRate }
  if ir.getD (BUFFER_SIZE - 1) 0 < FINGER_THRESHOLD ∨
      red.getD (BUFFER_SIZE - 1) 0 < FINGER_THRESHOLD then
    ({ s1 with fingerDetected := false, currentState := .waitingFinger }, noOut)
  else
    let s2 :=
      if e.validSPO2 = true ∧ e.validHeartRate = true ∧ e.spo2 > 70 ∧
          e.heartRate > 30 ∧ e.heartRate < 200 then
        { s1 with currentState := .displayingResults }
      else s1
    if inp.now - s2.lastDisplayUpdate > DISPLAY_UPDATE_INTERVAL then
      ({ s2 with lastDisplayUpdate := inp.now },
       { noOut with
          display := some (.measuringScreen (signalLabel (ir.getD (BUFFER_SIZE - 1) 0))) })
    else (s2, noOut)

/-- Handler for STATE_DISPLAYING_RESULTS (lines 252-274): refresh both buffers,
recompute the estimate, check finger presence (lines 259-263), then the
throttled results screen (lines 266-269) and `handleAlerts` (line 272). -/
def handleDisplayState (est : Estimator) (inp : TickInput) (s : SysState) :
    SysState × TickOutput :=
  let red := updateDataBuffers s.redBuffer inp.newRed
  let ir := updateDataBuffers s.irBuffer inp.newIr
  let e := est ir red
  let s1 := { s with redBuffer := red, irBuffer := ir,
                     spo2 := e.spo2, validSPO2 := e.validSPO2,
                     heartRate := e.heartRate, validHeartRate := e.validHeartRate }
  if ir.getD (BUFFER_SIZE - 1) 0 < FINGER_THRESHOLD ∨
      red.getD (BUFFER_SIZE - 1) 0 < FINGER_THRESHOLD then
    ({ s1 with fingerDetected := false, currentState := .waitingFinger }, noOut)
  else
    let disp :=
      if inp.now - s1.lastDisplayUpdate > DISPLAY_UPDATE_INTERVAL then
        some (displayMeasurements e.validHeartRate e.heartRate
          e.validSPO2 e.spo2)
      else none
    let s2 :=
      if inp.now - s1.lastDisplayUpdate > DISPLAY_UPDATE_INTERVAL then
        { s1 with lastDisplayUpdate := inp.now }
      else s1
    let ar := handleAlerts s2.validSPO2 s2.fingerDetected s2.spo2
      s2.validHeartRate s2.heartRate s2.lastAlertTime inp.now
    ({ s2 with lastAlertTime := ar.lastAlertTime },
     { led := none, display := disp, spo2Pattern := ar.spo2Pattern,
       hrTone := ar.hrTone })

/-- Handler for STATE_ERROR (lines 276-282): re-render the static error
message at a 2000 ms interval. -/
def handleErrorState (inp : TickInput) (s : SysState) : SysState × TickOutput :=
  if inp.now - s.lastDisplayUpdate > 2000 then
    ({ s with lastDisplayUpdate := inp.now },
     { noOut with display := some .errorScreen })
  else (s, noOut)

/-- Status LED update (lines 414-436): the level written to
STATUS_LED_PIN as a function of the current state and `millis()`.
The switch has no case for STATE_INITIALIZING, so nothing is written
there. -/
def updateStatusLED (state : SystemState) (now : Nat) : Option Bool :=
  match state with
  | .waitingFinger => some (decide (now % 1000 < 500))
  | .measuring => some (decide (now % 200 < 100))
  | .displayingResults => some true
  | .error => some (decide (now % 100 < 50))
  | .initializing => none

/-- One iteration of `loop()` (lines 97-124): the `!systemReady` early
return with its own blink (lines 99-102), otherwise the state switch
followed by `updateStatusLED()` on the (possibly changed) state. -/
def loopTick (est : Estimator) (inp : TickInput) (s : SysState) :
    SysState × TickOutput :=
  if s.systemReady = false then
    (s, { led := some (decide (inp.now % 500 < 250)), display := none,
          spo2Pattern := none, hrTone := false })
  else
    let step :=
      match s.currentState with
      | .waitingFinger => handleWaitingState est inp s
      | .measuring => handleMeasuringState est inp s
      | .displayingResults => handleDisplayState est inp s
      | .error => handleErrorState inp s
      | .initializing => (s, noOut)
    (step.1, { step.2 with led := updateStatusLED step.1.currentState inp.now })

/-! ## Boot (setup, lines 58-95) -/

/-- Zero-initialized globals before `setup()` runs. -/
def initialState : SysState :=
  { redBuffer := List.replicate BUFFER_SIZE 0,
    irBuffer := List.replicate BUFFER_SIZE 0,
    spo2 := 0, validSPO2 := false, heartRate := 0, validHeartRate := false,
    lastDisplayUpdate := 0, lastAlertTime := 0,
    fingerDetected := false, systemReady := false,
    currentState := .initializing }

/-- Boot outcome of `setup()` as a function of whether the LCD and the sensor
initialize (lines 75-92).  `systemReady` becomes true only on the
success path, after `currentState` is set to STATE_WAITING_FINGER. -/
def setup (lcdOk sensorOk : Bool) : SysState :=
  if lcdOk = false then { initialState with currentState := .error }
  else if sensorOk = false then { initialState with currentState := .error }
  else { initialState with currentState := .waitingFinger, systemReady := true }

/-- States reachable by booting and then running any number of loop
iterations with arbitrary environment inputs. -/
inductive Reachable (est : Estimator) : SysState → Prop where
  | boot (lcdOk sensorOk : Bool) : Reachable est (setup lcdOk sensorOk)
  | step (inp : TickInput) {s : SysState} :
      Reachable est s → Reachable est (loopTick est inp s).1

/-- The most recent sample consulted by the tick that starts in state
`s`: handleWaitingState reads the live sensor pair, while the
measuring/displaying handlers read index BUFFER_SIZE-1 of the freshly
refreshed buffers. -/
def tickLatest (inp : TickInput) (s : SysState) : SamplePair :=
  match s.currentState with
  | .waitingFinger => { red := inp.readingRed, infrared := inp.readingIR }
  | _ =>
    { red := (updateDataBuffers s.redBuffer inp.newRed).getD (BUFFER_SIZE - 1) 0,
      infrared := (updateDataBuffers s.irBuffer inp.newIr).getD (BUFFER_SIZE - 1) 0 }

/-! ## Concrete instances for witnesses and counterexamples -/

/-- An estimator run that reports both validity flags false. -/
def estInvalid : Estimator := fun _ _ =>
  { spo2 := 0, validSPO2 := false, heartRate := 0, validHeartRate := false }

/-- An estimator run reporting a normal valid reading (SpO2 95, HR 72). -/
def estNormal : Estimator := fun _ _ =>
  { spo2 := 95, validSPO2 := true, heartRate := 72, validHeartRate := true }

/-- A Measuring-session state: both buffers filled with strong signal
(60000 per channel), finger detected, system ready. -/
def measuringState : SysState :=
  { redBuffer := List.replicate 100 60000, irBuffer := List.replicate 100 60000,
    spo2 := 0, validSPO2 := false, heartRate := 0, validHeartRate := false,
    lastDisplayUpdate := 0, lastAlertTime := 0,
    fingerDetected := true, systemReady := true, currentState := .measuring }

/-- Tick input whose 25 fresh red samples are exactly FINGER_THRESHOLD
(boundary case) while the IR channel stays strong. -/
def borderInput : TickInput :=
  { now := 100, avail := false, readingIR := 0, readingRed := 0,
    initRed := [], initIr := [],
    newRed := List.replicate 25 50000, newIr := List.replicate 25 60000 }

/-- Tick input with 25 strong fresh samples on both channels, late
enough (2000 ms) that the display throttle is open. -/
def strongInput : TickInput :=
  { now := 2000, avail := false, readingIR := 0, readingRed := 0,
    initRed := [], initIr := [],
    newRed := List.replicate 25 60000, newIr := List.replicate 25 60000 }

/-- Tick input with no sensor activity. -/
def idleInput (now : Nat) : TickInput :=
  { now := now, avail := false, readingIR := 0, readingRed := 0,
    initRed := [], initIr := [], newRed := [], newIr := [] }

/-- Tick input whose 25 fresh red samples are strictly below
FINGER_THRESHOLD while the IR channel stays strong. -/
def lowInput : TickInput :=
  { now := 100, avail := false, readingIR := 0, readingRed := 0,
    initRed := [], initIr := [],
    newRed := List.replicate 25 40000, newIr := List.replicate 25 60000 }

/-- Three qualifying alert invocations: two double-beep candidates
1000 ms apart, then an emergency candidate 2500 ms after the second. -/
def demoCalls : List AlertCall :=
  [{ validSPO2 := true, fingerDetected := true, spo2 := 85,
     validHeartRate := true, heartRate := 80, time := 3000 },
   { validSPO2 := true, fingerDetected := true, spo2 := 85,
     validHeartRate := true, heartRate := 80, time := 4000 },
   { validSPO2 := true, fingerDetected := true, spo2 := 60,
     validHeartRate := true, heartRate := 80, time := 6500 }]

/-! ### Helper lemmas about handleAlerts -/

theorem handleAlerts_fire {vs fd vh : Bool} {spo2 hr : Int} {la t : Nat}
    {p : AlertPattern}
    (h : (handleAlerts vs fd spo2 vh hr la t).spo2Pattern = some p) :
    (handleAlerts vs fd spo2 vh hr la t).lastAlertTime = t ∧ la + 3000 ≤ t := by
  by_cases h1 : vs = false ∨ fd = false
  · simp [handleAlerts, h1] at h
  · by_cases h2 : t - la < 3000
    · simp [handleAlerts, h1, h2] at h
    · have ht : la + 3000 ≤ t := by omega
      by_cases h3 : spo2 < 90 ∧ spo2 > 80
      · exact ⟨by simp [handleAlerts, h1, h2, h3], ht⟩
      · by_cases h4 : spo2 ≤ 80 ∧ spo2 > 0
        · exact ⟨by simp [handleAlerts, h1, h2, h3, h4], ht⟩
        · simp [handleAlerts, h1, h2, h3, h4] at h

theorem handleAlerts_nofire {vs fd vh : Bool} {spo2 hr : Int} {la t : Nat}
    (h : (handleAlerts vs fd spo2 vh hr la t).spo2Pattern = none) :
    (handleAlerts vs fd spo2 vh hr la t).lastAlertTime = la := by
  by_cases h1 : vs = false ∨ fd = false
  · simp [handleAlerts, h1]
  · by_cases h2 : t - la < 3000
    · simp [handleAlerts, h1, h2]
    · by_cases h3 : spo2 < 90 ∧ spo2 > 80
      · simp [handleAlerts, h1, h2, h3] at h
      · by_cases h4 : spo2 ≤ 80 ∧ spo2 > 0
        · simp [handleAlerts, h1, h2, h3, h4] at h
        · simp [handleAlerts, h1, h2, h3, h4]

/-- Core cooldown lemma: every SpO2 pattern start in `runAlerts la calls`
is at least `la + 3000`, and successive starts are pairwise at least
3000 ms apart. -/
theorem runAlerts_spacing (calls : List AlertCall) : ∀ la : Nat,
    (∀ f ∈ runAlerts la calls, la + 3000 ≤ f.1) ∧
    (runAlerts la calls).Pairwise (fun a b => a.1 + 3000 ≤ b.1) := by
  induction calls with
  | nil => intro la; simp [runAlerts]
  | cons c cs ih =>
    intro la
    unfold runAlerts
    rcases hp : (handleAlerts c.validSPO2 c.fingerDetected c.spo2
        c.validHeartRate c.heartRate la c.time).spo2Pattern with _ | p
    · simp only [hp]
      have hla := handleAlerts_nofire hp
      rw [hla]
      exact ih la
    · simp only [hp]
      obtain ⟨hlast, hge⟩ := handleAlerts_fire hp
      rw [hlast]
      obtain ⟨ihmem, ihpw⟩ := ih c.time
      refine ⟨?_, ?_⟩
      · intro f hf
        rcases List.mem_cons.mp hf with hf | hf
        · rw [hf]; exact hge
        · have := ihmem f hf; omega
      · exact List.Pairwise.cons (fun b hb => by have := ihmem b hb; omega) ihpw

/-! ### Pointwise characterization of the two loops -/

theorem getD_set (l : List Nat) (n j v d : Nat) :
    (l.set n v).getD j d =
      if n = j ∧ n < l.length then v else l.getD j d := by
  induction l generalizing n j with
  | nil => simp
  | cons a t ih =>
    cases n with
    | zero =>
      cases j with
      | zero => simp
      | succ j => simp
    | succ n =>
      cases j with
      | zero => simp
      | succ j =>
        simp only [List.set_cons_succ, List.getD_cons_succ, ih, List.length_cons]
        by_cases hc : n = j ∧ n < t.length
        · rw [if_pos hc, if_pos (by omega)]
        · rw [if_neg hc, if_neg (by omega)]


/-- After the shift loop has processed `i = 25 .. 25+m-1`, positions
`j < m` hold `buf[j + 25]` and all later positions are unchanged.
(Each position is read at loop index `i = j` before it is written at
loop index `i = j + 25`, so reads always see original values.) -/
theorem shiftLoop_spec (buf : List Nat) (hlen : buf.length = 100) :
    ∀ m, m ≤ 75 →
      ((List.range' 25 m).foldl shiftStep buf).length = 100 ∧
      ∀ j, ((List.range' 25 m).foldl shiftStep buf).getD j 0 =
        if j < m then buf.getD (j + 25) 0 else buf.getD j 0 := by
  intro m
  induction m with
  | zero =>
    intro _
    simp [hlen]
  | succ m ih =>
    intro hm
    obtain ⟨ihlen, ihget⟩ := ih (by omega)
    rw [List.range'_1_concat, List.foldl_append]
    simp only [List.foldl_cons, List.foldl_nil]
    have hidx : 25 + m - MEASUREMENT_SAMPLES = m := by
      simp only [MEASUREMENT_SAMPLES]; omega
    have hget25 : ((List.range' 25 m).foldl shiftStep buf).getD (25 + m) 0 =
        buf.getD (25 + m) 0 := by
      rw [ihget (25 + m), if_neg (by omega)]
    refine ⟨by simp [shiftStep, ihlen], ?_⟩
    intro j
    simp only [shiftStep, hidx, getD_set, ihlen, hget25]
    by_cases hj : m = j
    · rw [if_pos ⟨hj, by omega⟩, if_pos (by omega)]
      congr 1
      omega
    · rw [if_neg (by omega), ihget j]
      by_cases hjm : j < m
      · rw [if_pos hjm, if_pos (by omega)]
      · rw [if_neg hjm, if_neg (by omega)]

/-- After the refill loop has processed `i = 75 .. 75+m-1`, positions
`75 ≤ j < 75+m` hold `news[j - 75]` and all others are unchanged. -/
theorem fillLoop_spec (news buf : List Nat) (hlen : buf.length = 100) :
    ∀ m, m ≤ 25 →
      ((List.range' 75 m).foldl (fillStep news) buf).length = 100 ∧
      ∀ j, ((List.range' 75 m).foldl (fillStep news) buf).getD j 0 =
        if 75 ≤ j ∧ j < 75 + m then news.getD (j - 75) 0 else buf.getD j 0 := by
  intro m
  induction m with
  | zero =>
    intro _
    simp only [List.range', List.foldl_nil]
    exact ⟨hlen, fun j => by rw [if_neg (by omega)]⟩
  | succ m ih =>
    intro hm
    obtain ⟨ihlen, ihget⟩ := ih (by omega)
    rw [List.range'_1_concat, List.foldl_append]
    simp only [List.foldl_cons, List.foldl_nil]
    have hidx : 75 + m - (BUFFER_SIZE - MEASUREMENT_SAMPLES) = m := by
      simp only [BUFFER_SIZE, MEASUREMENT_SAMPLES]; omega
    refine ⟨by simp [fillStep, ihlen], ?_⟩
    intro j
    simp only [fillStep, hidx, getD_set, ihlen]
    by_cases hj : 75 + m = j
    · rw [if_pos ⟨hj, by omega⟩, if_pos (by omega)]
      congr 1
      omega
    · rw [if_neg (by omega), ihget j]
      by_cases hjm : 75 ≤ j ∧ j < 75 + m
      · rw [if_pos hjm, if_pos (by omega)]
      · rw [if_neg hjm, if_neg (by omega)]

/-- Full pointwise characterization of `updateDataBuffers` on a
100-entry channel buffer. -/
theorem updateDataBuffers_getD (buf news : List Nat) (hlen : buf.length = 100) :
    (updateDataBuffers buf news).length = 100 ∧
    ∀ j, (updateDataBuffers buf news).getD j 0 =
      if j < 75 then buf.getD (j + 25) 0
      else if j < 100 then news.getD (j - 75) 0
      else 0 := by
  have h1 := shiftLoop_spec buf hlen 75 (by omega)
  have h2 := fillLoop_spec news ((List.range' 25 75).foldl shiftStep buf)
    h1.1 25 (by omega)
  have hdef : updateDataBuffers buf news =
      (List.range' 75 25).foldl (fillStep news)
        ((List.range' 25 75).foldl shiftStep buf) := by
    simp only [updateDataBuffers, BUFFER_SIZE, MEASUREMENT_SAMPLES]
  rw [hdef]
  refine ⟨h2.1, ?_⟩
  intro j
  rw [h2.2 j]
  by_cases hj : 75 ≤ j ∧ j < 75 + 25
  · rw [if_pos hj, if_neg (by omega), if_pos (by omega)]
  · rw [if_neg hj, h1.2 j]
    by_cases hjlt : j < 75
    · rw [if_pos hjlt, if_pos hjlt]
    · rw [if_neg hjlt, if_neg hjlt, if_neg (by omega)]
      rw [List.getD_eq_getElem?_getD, List.getElem?_eq_none (by omega)]
      rfl

/-! ### Preservation lemmas: no handler writes systemReady, and no
handler enters STATE_ERROR -/

theorem handleWaitingState_ready (est : Estimator) (inp : TickInput) (s : SysState) :
    (handleWaitingState est inp s).1.systemReady = s.systemReady := by
  unfold handleWaitingState
  split
  · rfl
  · split
    · rfl
    · rfl

theorem handleWaitingState_state (est : Estimator) (inp : TickInput) (s : SysState) :
    (handleWaitingState est inp s).1.currentState = SystemState.measuring ∨
    (handleWaitingState est inp s).1.currentState = s.currentState := by
  unfold handleWaitingState
  split
  · exact Or.inl rfl
  · split
    · exact Or.inr rfl
    · exact Or.inr rfl

section StructuralLemmas

/- `updateDataBuffers` is kept opaque inside this section: these lemmas
are about control flow only, and unfolding the 75-step fold would blow
up definitional reduction. -/
attribute [local irreducible] updateDataBuffers

theorem handleMeasuringState_ready (est : Estimator) (inp : TickInput) (s : SysState) :
    (handleMeasuringState est inp s).1.systemReady = s.systemReady := by
  simp only [handleMeasuringState]
  split
  · rfl
  · split
    · split <;> rfl
    · split <;> rfl

theorem handleMeasuringState_state (est : Estimator) (inp : TickInput) (s : SysState) :
    (handleMeasuringState est inp s).1.currentState = SystemState.waitingFinger ∨
    (handleMeasuringState est inp s).1.currentState = SystemState.displayingResults ∨
    (handleMeasuringState est inp s).1.currentState = s.currentState := by
  simp only [handleMeasuringState]
  split
  · exact Or.inl rfl
  · split
    · split
      · exact Or.inr (Or.inl rfl)
      · exact Or.inr (Or.inl rfl)
    · split
      · exact Or.inr (Or.inr rfl)
      · exact Or.inr (Or.inr rfl)

theorem handleDisplayState_ready (est : Estimator) (inp : TickInput) (s : SysState) :
    (handleDisplayState est inp s).1.systemReady = s.systemReady := by
  simp only [handleDisplayState]
  split
  · rfl
  · split <;> rfl

theorem handleDisplayState_state (est : Estimator) (inp : TickInput) (s : SysState) :
    (handleDisplayState est inp s).1.currentState = SystemState.waitingFinger ∨
    (handleDisplayState est inp s).1.currentState = s.currentState := by
  simp only [handleDisplayState]
  split
  · exact Or.inl rfl
  · split <;> exact Or.inr rfl

theorem handleErrorState_ready (inp : TickInput) (s : SysState) :
    (handleErrorState inp s).1.systemReady = s.systemReady := by
  unfold handleErrorState
  split <;> rfl

theorem handleErrorState_state (inp : TickInput) (s : SysState) :
    (handleErrorState inp s).1.currentState = s.currentState := by
  unfold handleErrorState
  split <;> rfl

/-- The loop body never writes `systemReady`. -/
theorem loopTick_ready (est : Estimator) (inp : TickInput) (s : SysState) :
    (loopTick est inp s).1.systemReady = s.systemReady := by
  unfold loopTick
  split
  · rfl
  · rcases hcs : s.currentState <;>
      simp only [hcs, handleWaitingState_ready, handleMeasuringState_ready,
        handleDisplayState_ready, handleErrorState_ready]

/-- The loop body never moves the machine into STATE_ERROR: if a tick ends
in Error it started there. -/
theorem loopTick_error_entry (est : Estimator) (inp : TickInput) (s : SysState)
    (h : (loopTick est inp s).1.currentState = SystemState.error) :
    s.currentState = SystemState.error := by
  unfold loopTick at h
  split at h
  · exact h
  · rcases hcs : s.currentState with _ | _ | _ | _ | _ <;> simp only [hcs] at h
    · exact h
    · rcases handleWaitingState_state est inp s with h1 | h1 <;>
        rw [h1] at h
      · exact absurd h (by simp)
      · rw [hcs] at h
        exact absurd h (by simp)
    · rcases handleMeasuringState_state est inp s with h1 | h1 | h1 <;>
        rw [h1] at h
      · exact absurd h (by simp)
      · exact absurd h (by simp)
      · rw [hcs] at h
        exact absurd h (by simp)
    · rcases handleDisplayState_state est inp s with h1 | h1 <;>
        rw [h1] at h
      · exact absurd h (by simp)
      · rw [hcs] at h
        exact absurd h (by simp)
    · rfl

/-- Reachability invariant: in every reachable state, being in
STATE_ERROR implies `systemReady` is still false — the only writes of
`currentState = STATE_ERROR` happen in `setup()` before `systemReady`
is set, and `loop()` never enters Error nor writes `systemReady`. -/
theorem reachable_error_not_ready {est : Estimator} {s : SysState}
    (h : Reachable est s) :
    s.currentState = SystemState.error → s.systemReady = false := by
  induction h with
  | boot lcdOk sensorOk =>
    intro herr
    cases lcdOk <;> cases sensorOk <;> simp [setup, initialState] at herr ⊢
  | step inp hs ih =>
    intro herr
    rw [loopTick_ready]
    exact ih (loopTick_error_entry _ _ _ herr)

end StructuralLemmas

/-- Lookup with `getD` at an in-bounds index matches the optional lookup. -/
theorem getElem?_eq_some_getD (l : List Nat) (n : Nat) (h : n < l.length) :
    l[n]? = some (l.getD n 0) := by
  rw [List.getD_eq_getElem?_getD, List.getElem?_eq_getElem h]
  rfl

section Claim1Section

attribute [local irreducible] updateDataBuffers

/-- C1: For every filled buffer state, the windowed refresh
(updateDataBuffers) discards the oldest 25 entries of a 100-entry
channel buffer by shifting the remaining 75 entries to the front with
their relative order preserved, then appends exactly the 25 newly
polled samples at the end, leaving the total length at exactly 100. -/
theorem claim1_slideRefresh (buf news : List Nat)
    (hbuf : buf.length = 100) (hnews : news.length = 25) :
    (updateDataBuffers buf news).length = 100 ∧
    (∀ j, j < 75 → (updateDataBuffers buf news).getD j 0 = buf.getD (j + 25) 0) ∧
    (updateDataBuffers buf news).drop 75 = news := by
  obtain ⟨hlen, hget⟩ := updateDataBuffers_getD buf news hbuf
  refine ⟨hlen, fun j hj => by rw [hget j, if_pos hj], ?_⟩
  apply List.ext_getElem?
  intro n
  rw [List.getElem?_drop]
  by_cases hn : n < 25
  · rw [getElem?_eq_some_getD _ _ (by omega), getElem?_eq_some_getD _ _ (by omega)]
    have hD := hget (75 + n)
    rw [if_neg (by omega), if_pos (by omega)] at hD
    have hidx : 75 + n - 75 = n := by omega
    rw [hidx] at hD
    rw [hD]
  · rw [List.getElem?_eq_none (by omega), List.getElem?_eq_none (by omega)]

end Claim1Section

/-- C1 witness: the theorem applied to a concrete filled buffer. -/
theorem claim1_witness :
    (updateDataBuffers (List.replicate 100 7) (List.replicate 25 9)).length = 100 ∧
    (∀ j, j < 75 → (updateDataBuffers (List.replicate 100 7) (List.replicate 25 9)).getD j 0 =
      (List.replicate 100 7).getD (j + 25) 0) ∧
    (updateDataBuffers (List.replicate 100 7) (List.replicate 25 9)).drop 75 =
      List.replicate 25 9 :=
  claim1_slideRefresh (List.replicate 100 7) (List.replicate 25 9) (by simp) (by simp)

/-- C4 counterexample: with spo2Valid true, finger detected,
heartRateValid true and heartRate 130 > 120, but only 1000 ms since the
last alert start, handleAlerts returns without firing the heart-rate
tone: the early cooldown return at lines 381-383 gates the heart-rate
branch too. -/
theorem claim4_counterexample :
    (5000 : Nat) - 4000 < 3000 ∧
    (handleAlerts true true 96 true 130 4000 5000).hrTone = false := by
  exact ⟨by decide, by decide⟩

/-- C4 amended: the 100 ms heart-rate tone fires exactly when spo2Valid
and fingerDetected hold, the global 3000 ms cooldown has elapsed, and
heartRateValid holds with heartRate > 120 or < 50.  It is independent
of which SpO2 pattern (if any) fires — the right-hand side does not
mention spo2 — but it is gated by the same cooldown, not exempt from it. -/
theorem claim4_amended (vs fd : Bool) (spo2 : Int) (vh : Bool) (hr : Int)
    (la t : Nat) :
    (handleAlerts vs fd spo2 vh hr la t).hrTone =
      (vs && fd && decide (3000 ≤ t - la) &&
        (vh && (decide (hr > 120) || decide (hr < 50)))) := by
  by_cases h2 : t - la < 3000
  · have hdec : decide (3000 ≤ t - la) = false := by
      simp only [decide_eq_false_iff_not]
      omega
    cases vs <;> cases fd <;> simp [handleAlerts, h2, hdec]
  · have hdec : decide (3000 ≤ t - la) = true := by
      simp only [decide_eq_true_eq]
      omega
    by_cases h3 : spo2 < 90 ∧ spo2 > 80 <;> by_cases h4 : spo2 ≤ 80 ∧ spo2 > 0 <;>
      cases vs <;> cases fd <;>
      simp [handleAlerts, h2, h3, h4, hdec, Bool.and_comm, Bool.and_assoc]

/-- C5: for any sequence of qualifying estimates and (monotone millis)
times, no two SpO2 alert pattern starts are less than 3000 ms apart:
the list of pattern starts collected by runAlerts is pairwise spaced by
at least 3000 ms. -/
theorem claim5_spo2_cooldown (calls : List AlertCall)
    (hmono : calls.Pairwise (fun a b => a.time ≤ b.time)) :
    (runAlerts 0 calls).Pairwise (fun a b => a.1 + 3000 ≤ b.1) :=
  (runAlerts_spacing calls 0).2

/-- C5 witness: three qualifying calls at 3000, 4000 and 6500 ms; the
starts actually fired (at 3000 and 6500) are 3500 ms apart. -/
theorem claim5_witness :
    (runAlerts 0 demoCalls).Pairwise (fun a b => a.1 + 3000 ≤ b.1) :=
  claim5_spo2_cooldown demoCalls (by decide)

/-- C10: the heart-rate branch never writes lastAlertTime (only the two
SpO2 branches do, lines 395 and 401), so with no qualifying SpO2 value
(spo2 ≥ 90) the cooldown reference time never advances and the 100 ms
heart-rate tone fires on both of two consecutive ticks, however close
together (t2 may be arbitrarily soon after t1). -/
theorem claim10_hr_tone_unspaced (spo2 heartRate : Int) (la t1 t2 : Nat)
    (hspo2 : 90 ≤ spo2)
    (hhr : 120 < heartRate ∨ heartRate < 50)
    (h1 : la + 3000 ≤ t1) (h2 : la + 3000 ≤ t2) :
    (handleAlerts true true spo2 true heartRate la t1).lastAlertTime = la ∧
    (handleAlerts true true spo2 true heartRate la t1).hrTone = true ∧
    (handleAlerts true true spo2 true heartRate
      (handleAlerts true true spo2 true heartRate la t1).lastAlertTime t2).hrTone
      = true := by
  have hc1 : ¬(t1 - la < 3000) := by omega
  have hc2 : ¬(t2 - la < 3000) := by omega
  have h3 : ¬((spo2 : Int) < 90 ∧ spo2 > 80) := by omega
  have h4 : ¬((spo2 : Int) ≤ 80 ∧ spo2 > 0) := by omega
  have hla : (handleAlerts true true spo2 true heartRate la t1).lastAlertTime = la := by
    simp [handleAlerts, hc1, h3, h4]
  refine ⟨hla, ?_, ?_⟩
  · rcases hhr with h | h <;> simp [handleAlerts, hc1, h3, h4, h]
  · rw [hla]
    rcases hhr with h | h <;> simp [handleAlerts, hc2, h3, h4, h]

/-- C10 witness: two ticks only 50 ms apart (3000 and 3050) both fire
the heart-rate tone. -/
theorem claim10_witness :
    (handleAlerts true true 96 true 130 0 3000).lastAlertTime = 0 ∧
    (handleAlerts true true 96 true 130 0 3000).hrTone = true ∧
    (handleAlerts true true 96 true 130
      (handleAlerts true true 96 true 130 0 3000).lastAlertTime 3050).hrTone = true :=
  claim10_hr_tone_unspaced 96 130 0 3000 3050 (by omega) (by omega) (by omega) (by omega)

/-- C2 counterexample: with the freshest red sample exactly equal to
FINGER_THRESHOLD — so `latest().red ≤ FINGER_THRESHOLD` holds — a
Measuring tick does not return to WaitingForFinger: the code checks
strict `<` (lines 220, 259), so at equality the state stays Measuring. -/
theorem claim2_counterexample :
    measuringState.currentState = SystemState.measuring ∧
    (tickLatest borderInput measuringState).red ≤ FINGER_THRESHOLD ∧
    (tickLatest borderInput measuringState).infrared > FINGER_THRESHOLD ∧
    (loopTick estInvalid borderInput measuringState).1.currentState =
      SystemState.measuring := by
  refine ⟨rfl, by decide, by decide, by decide⟩

section Claim2Section

attribute [local irreducible] updateDataBuffers

/-- C2 amended: in every state except Initializing and Error, if the
most recent sample is strictly below FINGER_THRESHOLD on either
channel, the next evaluated state is WaitingForFinger (at exact
equality with the threshold no finger-loss transition fires). -/
theorem claim2_finger_loss_strict (est : Estimator) (inp : TickInput)
    (s : SysState)
    (hready : s.systemReady = true)
    (hstate : s.currentState = SystemState.waitingFinger ∨
      s.currentState = SystemState.measuring ∨
      s.currentState = SystemState.displayingResults)
    (hlow : (tickLatest inp s).red < FINGER_THRESHOLD ∨
      (tickLatest inp s).infrared < FINGER_THRESHOLD) :
    (loopTick est inp s).1.currentState = SystemState.waitingFinger := by
  have hnr : ¬(s.systemReady = false) := by simp [hready]
  rcases hstate with hcs | hcs | hcs
  · simp only [tickLatest, hcs] at hlow
    simp only [loopTick, if_neg hnr, hcs]
    unfold handleWaitingState
    split
    · rename_i hdet
      exfalso
      rcases hlow with h | h
      · exact absurd hdet.2.2 (by omega)
      · exact absurd hdet.2.1 (by omega)
    · split
      · exact hcs
      · exact hcs
  · simp only [tickLatest, hcs] at hlow
    simp only [loopTick, if_neg hnr, hcs]
    simp only [handleMeasuringState]
    split
    · rfl
    · rename_i hcond
      exact absurd (Or.symm hlow) hcond
  · simp only [tickLatest, hcs] at hlow
    simp only [loopTick, if_neg hnr, hcs]
    simp only [handleDisplayState]
    split
    · rfl
    · rename_i hcond
      exact absurd (Or.symm hlow) hcond

end Claim2Section

/-- C2 amended witness: fresh red samples at 40000 < 50000 send a
Measuring tick back to WaitingForFinger. -/
theorem claim2_witness :
    (loopTick estInvalid lowInput measuringState).1.currentState =
      SystemState.waitingFinger :=
  claim2_finger_loss_strict estInvalid lowInput measuringState rfl
    (Or.inr (Or.inl rfl)) (Or.inl (by decide))

section Claim3Section

attribute [local irreducible] updateDataBuffers

/-- C3: in state Measuring, when the finger-presence check passes, the
machine transitions to DisplayingResults exactly when the freshly
recomputed estimate has both validity flags true and spo2 > 70 and
30 < heartRate < 200; otherwise it stays in Measuring (an invalid
estimate causes no transition and no error). -/
theorem claim3_measuring_acceptance (est : Estimator) (inp : TickInput)
    (s : SysState)
    (hstate : s.currentState = SystemState.measuring)
    (hfinger : ¬((updateDataBuffers s.irBuffer inp.newIr).getD (BUFFER_SIZE - 1) 0
        < FINGER_THRESHOLD ∨
      (updateDataBuffers s.redBuffer inp.newRed).getD (BUFFER_SIZE - 1) 0
        < FINGER_THRESHOLD)) :
    (handleMeasuringState est inp s).1.currentState =
      (if (est (updateDataBuffers s.irBuffer inp.newIr)
            (updateDataBuffers s.redBuffer inp.newRed)).validSPO2 = true ∧
          (est (updateDataBuffers s.irBuffer inp.newIr)
            (updateDataBuffers s.redBuffer inp.newRed)).validHeartRate = true ∧
          (est (updateDataBuffers s.irBuffer inp.newIr)
            (updateDataBuffers s.redBuffer inp.newRed)).spo2 > 70 ∧
          (est (updateDataBuffers s.irBuffer inp.newIr)
            (updateDataBuffers s.redBuffer inp.newRed)).heartRate > 30 ∧
          (est (updateDataBuffers s.irBuffer inp.newIr)
            (updateDataBuffers s.redBuffer inp.newRed)).heartRate < 200
        then SystemState.displayingResults
        else SystemState.measuring) := by
  simp only [handleMeasuringState]
  rw [if_neg hfinger]
  by_cases hacc : (est (updateDataBuffers s.irBuffer inp.newIr)
        (updateDataBuffers s.redBuffer inp.newRed)).validSPO2 = true ∧
      (est (updateDataBuffers s.irBuffer inp.newIr)
        (updateDataBuffers s.redBuffer inp.newRed)).validHeartRate = true ∧
      (est (updateDataBuffers s.irBuffer inp.newIr)
        (updateDataBuffers s.redBuffer inp.newRed)).spo2 > 70 ∧
      (est (updateDataBuffers s.irBuffer inp.newIr)
        (updateDataBuffers s.redBuffer inp.newRed)).heartRate > 30 ∧
      (est (updateDataBuffers s.irBuffer inp.newIr)
        (updateDataBuffers s.redBuffer inp.newRed)).heartRate < 200
  · rw [if_pos hacc, if_pos hacc]
    split <;> rfl
  · rw [if_neg hacc, if_neg hacc]
    split
    · exact hstate
    · exact hstate

end Claim3Section

/-- C3 witness: a valid normal estimate (SpO2 95, HR 72) with strong
signal moves the concrete Measuring state to DisplayingResults. -/
theorem claim3_witness :
    (handleMeasuringState estNormal strongInput measuringState).1.currentState =
      (if (estNormal (updateDataBuffers measuringState.irBuffer strongInput.newIr)
            (updateDataBuffers measuringState.redBuffer strongInput.newRed)).validSPO2 = true ∧
          (estNormal (updateDataBuffers measuringState.irBuffer strongInput.newIr)
            (updateDataBuffers measuringState.redBuffer strongInput.newRed)).validHeartRate = true ∧
          (estNormal (updateDataBuffers measuringState.irBuffer strongInput.newIr)
            (updateDataBuffers measuringState.redBuffer strongInput.newRed)).spo2 > 70 ∧
          (estNormal (updateDataBuffers measuringState.irBuffer strongInput.newIr)
            (updateDataBuffers measuringState.redBuffer strongInput.newRed)).heartRate > 30 ∧
          (estNormal (updateDataBuffers measuringState.irBuffer strongInput.newIr)
            (updateDataBuffers measuringState.redBuffer strongInput.newRed)).heartRate < 200
        then SystemState.displayingResults
        else SystemState.measuring) :=
  claim3_measuring_acceptance estNormal strongInput measuringState rfl (by decide)

/-- C6 counterexample: a Measuring tick whose estimate check moves the
state to DisplayingResults still renders the Measuring screen in the
remainder of that tick (handleMeasuringState lines 231-249 run after
the transition at line 228 but draw the Measuring content), so the
content rendered that tick reflects the old state, not the new one. -/
theorem claim6_counterexample :
    measuringState.currentState = SystemState.measuring ∧
    (loopTick estNormal strongInput measuringState).1.currentState =
      SystemState.displayingResults ∧
    (loopTick estNormal strongInput measuringState).2.display =
      some (DisplayContent.measuringScreen SignalLabel.weak) := by
  refine ⟨rfl, by decide, by decide⟩

section Claim6Section

attribute [local irreducible] updateDataBuffers

/-- C6 amended: on a Measuring tick whose estimate check moves the
state to DisplayingResults, the status-LED update (which runs after the
handler, line 122) acts on the new state, and no alert runs that tick;
but any screen rendered in the remainder of that tick is still the
Measuring screen — the results screen and alerts begin only on the next
tick. -/
theorem claim6_midtick_transition (est : Estimator) (inp : TickInput)
    (s : SysState)
    (hready : s.systemReady = true)
    (hstate : s.currentState = SystemState.measuring)
    (hfinger : ¬((updateDataBuffers s.irBuffer inp.newIr).getD (BUFFER_SIZE - 1) 0
        < FINGER_THRESHOLD ∨
      (updateDataBuffers s.redBuffer inp.newRed).getD (BUFFER_SIZE - 1) 0
        < FINGER_THRESHOLD))
    (hacc : (est (updateDataBuffers s.irBuffer inp.newIr)
          (updateDataBuffers s.redBuffer inp.newRed)).validSPO2 = true ∧
        (est (updateDataBuffers s.irBuffer inp.newIr)
          (updateDataBuffers s.redBuffer inp.newRed)).validHeartRate = true ∧
        (est (updateDataBuffers s.irBuffer inp.newIr)
          (updateDataBuffers s.redBuffer inp.newRed)).spo2 > 70 ∧
        (est (updateDataBuffers s.irBuffer inp.newIr)
          (updateDataBuffers s.redBuffer inp.newRed)).heartRate > 30 ∧
        (est (updateDataBuffers s.irBuffer inp.newIr)
          (updateDataBuffers s.redBuffer inp.newRed)).heartRate < 200) :
    (loopTick est inp s).1.currentState = SystemState.displayingResults ∧
    (loopTick est inp s).2.led =
      updateStatusLED SystemState.displayingResults inp.now ∧
    (loopTick est inp s).2.spo2Pattern = none ∧
    (loopTick est inp s).2.hrTone = false ∧
    ∀ c, (loopTick est inp s).2.display = some c →
      c = DisplayContent.measuringScreen
        (signalLabel ((updateDataBuffers s.irBuffer inp.newIr).getD
          (BUFFER_SIZE - 1) 0)) := by
  have hnr : ¬(s.systemReady = false) := by simp [hready]
  simp only [loopTick, if_neg hnr, hstate]
  simp only [handleMeasuringState]
  rw [if_neg hfinger, if_pos hacc]
  split
  · refine ⟨rfl, rfl, rfl, rfl, ?_⟩
    intro c hc
    simp only [Option.some.injEq] at hc
    exact hc.symm
  · refine ⟨rfl, rfl, rfl, rfl, ?_⟩
    intro c hc
    exact absurd hc (by simp [noOut])

end Claim6Section

/-- C6 amended witness: the concrete transition tick of the
counterexample, through the amended statement. -/
theorem claim6_witness :
    (loopTick estNormal strongInput measuringState).1.currentState =
      SystemState.displayingResults ∧
    (loopTick estNormal strongInput measuringState).2.led =
      updateStatusLED SystemState.displayingResults strongInput.now ∧
    (loopTick estNormal strongInput measuringState).2.spo2Pattern = none ∧
    (loopTick estNormal strongInput measuringState).2.hrTone = false ∧
    (∀ c, (loopTick estNormal strongInput measuringState).2.display = some c →
      c = DisplayContent.measuringScreen
        (signalLabel ((updateDataBuffers measuringState.irBuffer
          strongInput.newIr).getD (BUFFER_SIZE - 1) 0))) :=
  claim6_midtick_transition estNormal strongInput measuringState rfl rfl
    (by decide) (by decide)

/-- C7 counterexample: boot with a failed LCD (reachable Error state)
and tick at millis() = 60.  The claimed 50-of-each-100-ms pattern says
the LED is off (60 % 100 = 60 ≥ 50), but the tick writes HIGH: the
`!systemReady` early return of lines 99-102 drives the LED with the
250-of-each-500-ms pattern, and the STATE_ERROR branch of
updateStatusLED never runs. -/
theorem claim7_counterexample :
    (setup false true).currentState = SystemState.error ∧
    (loopTick estInvalid (idleInput 60) (setup false true)).2.led = some true ∧
    ¬((60 : Nat) % 100 < 50) := by
  refine ⟨by decide, by decide, by decide⟩

/-- C7 amended: whenever the system is in the Error state, each tick
sets the status LED on for 250 ms of each 500 ms period, as a pure
function of the current time — the early return for `!systemReady`
(always false in a reachable Error state) drives the LED, and the
50/100 ms branch of updateStatusLED is unreachable. -/
theorem claim7_error_led (est : Estimator) (inp : TickInput) (s : SysState)
    (hreach : Reachable est s) (herr : s.currentState = SystemState.error) :
    (loopTick est inp s).2.led = some (decide (inp.now % 500 < 250)) := by
  have h := reachable_error_not_ready hreach herr
  simp [loopTick, h]

/-- C7 amended witness: the failed-LCD boot state ticked at 600 ms. -/
theorem claim7_witness :
    (loopTick estInvalid (idleInput 600) (setup false true)).2.led =
      some (decide ((600 : Nat) % 500 < 250)) :=
  claim7_error_led estInvalid (idleInput 600) (setup false true)
    (Reachable.boot false true) (by decide)

/-- C8: in every reachable state, being in STATE_ERROR implies
systemReady is false, so the tick is exactly the early return of lines
99-102: the state is untouched and the only output is the status LED
written from `millis() % 500 < 250` — the state switch, handleErrorState
and the STATE_ERROR branch of updateStatusLED are never reached. -/
theorem claim8_error_implies_not_ready (est : Estimator) (inp : TickInput)
    (s : SysState)
    (hreach : Reachable est s) (herr : s.currentState = SystemState.error) :
    s.systemReady = false ∧
    loopTick est inp s =
      (s, { led := some (decide (inp.now % 500 < 250)), display := none,
            spo2Pattern := none, hrTone := false }) := by
  have h := reachable_error_not_ready hreach herr
  exact ⟨h, by simp [loopTick, h]⟩

/-- C8 witness: the failed-sensor boot state ticked at 10 ms. -/
theorem claim8_witness :
    (setup true false).systemReady = false ∧
    loopTick estInvalid (idleInput 10) (setup true false) =
      (setup true false,
       { led := some (decide ((10 : Nat) % 500 < 250)), display := none,
         spo2Pattern := none, hrTone := false }) :=
  claim8_error_implies_not_ready estInvalid (idleInput 10) (setup true false)
    (Reachable.boot true false) (by decide)

section Claim9Section

attribute [local irreducible] updateDataBuffers

theorem handleWaitingState_silent (est : Estimator) (inp : TickInput)
    (s : SysState) :
    (handleWaitingState est inp s).2.spo2Pattern = none ∧
    (handleWaitingState est inp s).2.hrTone = false := by
  unfold handleWaitingState
  split
  · exact ⟨rfl, rfl⟩
  · split
    · exact ⟨rfl, rfl⟩
    · exact ⟨rfl, rfl⟩

theorem handleMeasuringState_silent (est : Estimator) (inp : TickInput)
    (s : SysState) :
    (handleMeasuringState est inp s).2.spo2Pattern = none ∧
    (handleMeasuringState est inp s).2.hrTone = false := by
  simp only [handleMeasuringState]
  split
  · exact ⟨rfl, rfl⟩
  · split
    · split <;> exact ⟨rfl, rfl⟩
    · split <;> exact ⟨rfl, rfl⟩

theorem handleErrorState_silent (inp : TickInput) (s : SysState) :
    (handleErrorState inp s).2.spo2Pattern = none ∧
    (handleErrorState inp s).2.hrTone = false := by
  unfold handleErrorState
  split
  · exact ⟨rfl, rfl⟩
  · exact ⟨rfl, rfl⟩

/-- C9: handleAlerts is invoked solely from handleDisplayState
(line 272), so a tick that starts in any state other than
DisplayingResults drives no buzzer pattern and no heart-rate tone,
regardless of the current estimate values or validity flags. -/
theorem claim9_buzzer_only_display (est : Estimator) (inp : TickInput)
    (s : SysState)
    (h : s.currentState ≠ SystemState.displayingResults) :
    (loopTick est inp s).2.spo2Pattern = none ∧
    (loopTick est inp s).2.hrTone = false := by
  by_cases hr : s.systemReady = false
  · simp [loopTick, hr]
  · rcases hcs : s.currentState with _ | _ | _ | _ | _
    · simp only [loopTick, if_neg hr, hcs]
      exact ⟨rfl, rfl⟩
    · simp only [loopTick, if_neg hr, hcs]
      exact handleWaitingState_silent est inp s
    · simp only [loopTick, if_neg hr, hcs]
      exact handleMeasuringState_silent est inp s
    · exact absurd hcs h
    · simp only [loopTick, if_neg hr, hcs]
      exact handleErrorState_silent inp s

end Claim9Section

/-- C9 witness: a Measuring tick with a valid (even alert-qualifying)
estimate drives no buzzer. -/
theorem claim9_witness :
    (loopTick estNormal (idleInput 5000) measuringState).2.spo2Pattern = none ∧
    (loopTick estNormal (idleInput 5000) measuringState).2.hrTone = false :=
  claim9_buzzer_only_display estNormal (idleInput 5000) measuringState (by decide)
